import Mathlib

/-!
Verification of the VeritasChain rating pipeline against its specification.

The development shallowly embeds the Python sources:
* `src/src/scoring.py`      — score calculation and tier bands,
* `src/src/activities.py`   — pipeline activities (user creation, eligibility,
                              minting with retry, notification),
* `src/src/workflows.py`    — the orchestrating workflow,
* `src/src/eas/client.py`   — the attestation (EAS) client.

Python floats carrying scores are embedded as rationals (`ℚ`); every score the
program manipulates is an integer sum divided by 5 and every threshold literal
(3.0, 4.0, 4.6, 5.0) is exactly representable, so all comparisons performed by
the code coincide with the rational ones.  Database state is embedded as
explicit lists of rows, and external collaborators (web3, eth_abi, the chain)
as function parameters.
-/

namespace VeritasChain

/-! ### Scoring — `src/src/scoring.py` -/

/-- Tier classification returned by `get_tier` (`scoring.py`). -/
inductive Tier
  | bronze
  | silver
  | gold
  deriving DecidableEq, Repr

/-- Embedding of `calculate_score` (`scoring.py` lines 6–32): error when the
vector length is not 5 or some element is outside `[0, 5]`, otherwise the sum
divided by 5. -/
def calculate_score (metrics : List Int) : Except String ℚ :=
  if metrics.length ≠ 5 then
    .error "Expected 5 metrics"
  else if metrics.any (fun m => decide (m < 0) || decide (5 < m)) then
    .error "Metric must be an integer between 0 and 5"
  else
    .ok ((metrics.sum : ℚ) / 5)

/-- Embedding of `get_tier` (`scoring.py` lines 35–52), with the float
thresholds 3.0, 4.0 and 4.6 embedded as the exact rationals 3, 4 and 23/5. -/
def get_tier (score : ℚ) : Option Tier :=
  if score < 3 then
    none
  else if 3 ≤ score ∧ score < 4 then
    some .bronze
  else if 4 ≤ score ∧ score < 23 / 5 then
    some .silver
  else
    some .gold

/-! ### Persistence rows — `src/src/database/models.py` -/

/-- Embedding of the `users` table row (`database/models.py`): integer primary
key `discord_id` and a nullable wallet address. -/
structure User where
  discord_id : Int
  wallet_address : Option String
  deriving DecidableEq, Repr

/-- Attestation status enum (`database/models.py`). -/
inductive AttestationStatus
  | pending
  | minted
  | failed
  deriving DecidableEq, Repr

/-- Embedding of the `attestations` table row (`database/models.py`): string
primary key `uid`, foreign key to the validation, recipient wallet, transaction
hash and status. -/
structure AttestationRow where
  uid : String
  validation_id : String
  recipient_wallet : String
  tx_hash : String
  status : AttestationStatus
  deriving DecidableEq, Repr

/-- Lookup of a user row by primary key (`session.get(User, id)`). -/
def getUser (users : List User) (uid : Int) : Option User :=
  users.find? (fun u => u.discord_id == uid)

/-! ### User creation in `calculate_and_store` — `src/src/activities.py` lines 46–62

The activity ensures a user row exists with the pattern
`session.get(User, id)` followed, when the row is absent, by an unguarded
`session.add` / `flush`.  The store is embedded as the list of primary keys
present; the flush of a row whose key already exists raises the primary-key
unique-constraint violation. -/

/-- The existence check `session.get(User, id) is not None` performed first by
`calculate_and_store` for each referenced user. -/
def userExists (db : List Int) (uid : Int) : Bool :=
  db.contains uid

/-- The unguarded `session.add(User(...))` + `flush()` insert performed by
`calculate_and_store` when the existence check found nothing: the database
enforces the primary-key unique constraint, so flushing a duplicate key fails. -/
def insertUser (db : List Int) (uid : Int) : Except String (List Int) :=
  if db.contains uid then
    .error "unique constraint violation"
  else
    .ok (db ++ [uid])

/-- One run's ensure-user logic from `calculate_and_store`, split at the
suspension point: given the result `found` of its earlier existence check, the
run either skips the insert or performs the unguarded insert. -/
def ensureUserResume (found : Bool) (db : List Int) (uid : Int) :
    Except String (List Int) :=
  if found then .ok db else insertUser db uid

/-- Two concurrent `calculate_and_store` runs referencing the same new user,
interleaved so that both existence checks (`session.get`) execute against the
initial store before either run flushes its insert. -/
def raceBothCheckFirst (uid : Int) (db0 : List Int) : Except String (List Int) :=
  let found1 := userExists db0 uid
  let found2 := userExists db0 uid
  match ensureUserResume found1 db0 uid with
  | .error e => .error e
  | .ok db1 => ensureUserResume found2 db1 uid

/-- Modelled from the spec: `EnsureUser(id)` as an atomic insert-or-fetch that
"must be safe under a unique-constraint conflict", i.e. an insert that on
conflict falls back to fetching the existing row instead of failing. -/
def ensureUserSpecAtomic (db : List Int) (uid : Int) : List Int :=
  if db.contains uid then db else db ++ [uid]

/-! ### `check_eligibility` — `src/src/activities.py` lines 84–127 -/

/-- Embedding of the pydantic `EligibilityResult` (`data_models.py`). -/
structure EligibilityResult where
  eligible : Bool
  reason : Option String
  wallet_address : Option String
  deriving DecidableEq, Repr

/-- Embedding of `check_eligibility` (`activities.py` lines 84–127).  The
second component records whether the activity opened a database session and
queried the target user: the `score < 3.0` branch returns before the session
is opened.  Python's falsy test `if not user.wallet_address` holds for both
`None` and the empty string, captured by `getD "" = ""`. -/
def check_eligibility (users : List User) (target_user_id : Int) (score : ℚ) :
    EligibilityResult × Bool :=
  if score < 3 then
    (⟨false, some "Not Eligible", none⟩, false)
  else
    match getUser users target_user_id with
    | none => (⟨false, some "No Wallet", none⟩, true)
    | some user =>
      if user.wallet_address.getD "" = "" then
        (⟨false, some "No Wallet", none⟩, true)
      else
        (⟨true, none, user.wallet_address⟩, true)

/-! ### `mint_attestation` — `src/src/activities.py` lines 130–217

The EAS client call of each attempt is embedded as a function
`outcomes : Nat → Option (String × String)` giving, per attempt number, either
the `(uid, tx_hash)` pair returned by `EASClient.create_attestation` or `none`
when that attempt raises.  The embedding records the attestation rows written,
the computed back-off waits (`await asyncio.sleep(2 ** attempt)`), and the
number of attempts executed. -/

/-- The attempt cap `max_attempts = 5` (`activities.py` line 148). -/
def max_attempts : Nat := 5

/-- Observable outcome of one invocation of the `mint_attestation` activity:
its result (a raise is an `Except.error`), the attestation rows it committed,
the back-off waits it slept, and how many attempts it made. -/
structure MintOutcome where
  result : Except String (String × String)
  rows : List AttestationRow
  waits : List Nat
  attempts : Nat
  deriving Repr

/-- The retry loop body of `mint_attestation` (`activities.py` lines 151–217):
`attempt` is the current attempt number, `fuel` the count of attempts still
allowed including the current one (so `fuel = 0` inside an iteration means
`attempt < max_attempts` is false).  On success a MINTED row is stored and the
pair returned; on a failed non-final attempt the loop sleeps `2 ^ attempt`
seconds and retries; on the final failure a FAILED row with uid
`"failed_" ++ validation_id` and empty transaction hash is stored and the
activity raises.  The `fuel = 0` base case is the unreachable
`raise Exception("Unexpected error in mint_attestation")` after the loop. -/
def mintGo (vid wallet : String) (outcomes : Nat → Option (String × String)) :
    Nat → Nat → MintOutcome
  | _, 0 => ⟨.error "Unexpected error in mint_attestation", [], [], 0⟩
  | attempt, fuel + 1 =>
    match outcomes attempt with
    | some (uid, tx) =>
      ⟨.ok (uid, tx), [⟨uid, vid, wallet, tx, .minted⟩], [], 1⟩
    | none =>
      if fuel = 0 then
        ⟨.error "Failed to mint attestation",
          [⟨"failed_" ++ vid, vid, wallet, "", .failed⟩], [], 1⟩
      else
        let rest := mintGo vid wallet outcomes (attempt + 1) fuel
        ⟨rest.result, rest.rows, 2 ^ attempt :: rest.waits, rest.attempts + 1⟩

/-- Embedding of the `mint_attestation` activity (`activities.py` lines
130–217): the loop `for attempt in range(1, max_attempts + 1)`. -/
def mint_attestation (vid wallet : String)
    (outcomes : Nat → Option (String × String)) : MintOutcome :=
  mintGo vid wallet outcomes 1 max_attempts

/-! ### `CivilityRatingWorkflow.run` — `src/src/workflows.py` lines 28–176 -/

/-- Embedding of the pydantic `RatingData` (`data_models.py`). -/
structure RatingData where
  validator_id : Int
  target_message_id : Int
  target_user_id : Int
  channel_id : Int
  metrics : List Int
  deriving Repr

/-- Embedding of the pydantic `WorkflowResult` (`data_models.py`), with all
optional fields explicit. -/
structure WorkflowResult where
  success : Bool
  validation_id : Option String
  score : Option ℚ
  tier : Option Tier
  attestation_uid : Option String
  tx_hash : Option String
  reason : Option String
  error : Option String
  deriving Repr

/-- What the workflow hands to the `notify_discord` activity when it reaches
the Notify step: the tier and the (possibly null) attestation uid. -/
structure NotifyPayload where
  tier : Tier
  eas_uid : Option String
  deriving DecidableEq, Repr

/-- Observable outcome of one workflow run: the structured result, the
attestation rows persisted by the mint step, and the Notify payload when the
run reached the Notify step. -/
structure RunOutcome where
  result : WorkflowResult
  attestation_rows : List AttestationRow
  notified : Option NotifyPayload
  deriving Repr

/-- Embedding of `CivilityRatingWorkflow.run` (`workflows.py` lines 28–176).
Parameters: `users` is the user table consulted by `check_eligibility`, `vid`
the validation identifier generated by `calculate_and_store`, and `outcomes`
the per-attempt behaviour of the EAS client inside `mint_attestation`.  A
scoring error propagates to the top-level handler (success false with the
error string); an ineligible result or a `None` tier returns early without
minting or notifying; a mint failure is caught, `eas_uid` and `tx_hash` become
`None`, and the run still notifies and returns success true. -/
def workflowRun (rating : RatingData) (users : List User) (vid : String)
    (outcomes : Nat → Option (String × String)) : RunOutcome :=
  match calculate_score rating.metrics with
  | .error e => ⟨⟨false, none, none, none, none, none, none, some e⟩, [], none⟩
  | .ok score =>
    let elig := (check_eligibility users rating.target_user_id score).1
    if !elig.eligible then
      ⟨⟨false, some vid, some score, none, none, none, elig.reason, none⟩, [], none⟩
    else
      match get_tier score with
      | none =>
        ⟨⟨false, some vid, some score, none, none, none,
          some "Score below threshold", none⟩, [], none⟩
      | some tier =>
        let wallet := elig.wallet_address.getD ""
        let m := mint_attestation vid wallet outcomes
        match m.result with
        | .ok (uid, tx) =>
          ⟨⟨true, some vid, some score, some tier, some uid, some tx, none, none⟩,
            m.rows, some ⟨tier, some uid⟩⟩
        | .error _ =>
          ⟨⟨true, some vid, some score, some tier, none, none, none, none⟩,
            m.rows, some ⟨tier, none⟩⟩

/-! ### EAS client — `src/src/eas/client.py`

External collaborators are embedded as parameters: `isAddress` and
`toChecksum` stand for `w3.is_address` / `Web3.to_checksum_address`, `chain`
for the sign–broadcast–wait sequence (it consumes the attest call and yields
the mined receipt and transaction hash), and `decode` for
`contract.events.Attested().process_log` composed with the uid formatting
(`"0x" + uid.hex()`), yielding the formatted uid on a successful decode. -/

/-- Distinct failure modes of `EASClient.create_attestation`, one constructor
per raise site in `eas/client.py`. -/
inductive EASError
  | invalidMetricsLength
  | metricOutOfRange
  | invalidRecipient
  | schemaUidLength
  | schemaUidNotHex
  | transactionFailed (tx : String)
  | uidMissing (tx : String)
  deriving DecidableEq, Repr

/-- The argument tuple the client passes to the contract's `attest` function
(`eas/client.py` lines 191–214): schema uid bytes plus the attestation data
tuple `(recipient, expirationTime, revocable, refUID, data, value)`. -/
structure AttestCall where
  schema : List Nat
  recipient : String
  expirationTime : Nat
  revocable : Bool
  refUID : List Nat
  data : List Nat
  value : Nat
  deriving DecidableEq, Repr

/-- A mined transaction receipt: status word and raw event logs. -/
structure Receipt (L : Type) where
  status : Nat
  logs : List L

/-- One 32-byte big-endian ABI word holding the natural number `n`
(big-endian base-256 digits, most significant first). -/
def word256 (n : Nat) : List Nat :=
  (List.range 32).map (fun i => n / 256 ^ (31 - i) % 256)

/-- UTF-8 bytes of a string, as naturals. -/
def utf8Bytes (s : String) : List Nat :=
  s.toUTF8.toList.map (fun b => b.toNat)

/-- Right-pad a byte string with zeros to a multiple of 32 bytes. -/
def padRight32 (bs : List Nat) : List Nat :=
  bs ++ List.replicate ((32 - bs.length % 32) % 32) 0

/-- ABI tail encoding of a dynamic `uint8[]` array: length word followed by
one word per element. -/
def abiUint8Array (xs : List Int) : List Nat :=
  word256 xs.length ++ (xs.map (fun x => word256 x.toNat)).flatten

/-- ABI tail encoding of a dynamic `string`: byte-length word followed by the
zero-padded UTF-8 bytes. -/
def abiString (s : String) : List Nat :=
  word256 (utf8Bytes s).length ++ padRight32 (utf8Bytes s)

/-- Models the external call `eth_abi.encode(["uint16", "uint8[]", "string",
"string"], [scaled_score, metric_ratings, source_ref, community_context])`
(`eas/client.py` lines 70–73) per the canonical ABI: a four-slot head — the
`uint16` value word and three tail offsets — followed by the three dynamic
tails in field order. -/
def abiEncodeSchema (scaled_score : Nat) (metric_ratings : List Int)
    (source_ref community_context : String) : List Nat :=
  let t1 := abiUint8Array metric_ratings
  let t2 := abiString source_ref
  let t3 := abiString community_context
  word256 scaled_score ++ word256 128 ++ word256 (128 + t1.length) ++
    word256 (128 + t1.length + t2.length) ++ t1 ++ t2 ++ t3

/-- Python's `s.replace("0x", "")` for the two-character pattern `"0x"`:
left-to-right, non-overlapping removal of every occurrence. -/
def removeAll0x : List Char → List Char
  | [] => []
  | '0' :: 'x' :: rest => removeAll0x rest
  | c :: rest => c :: removeAll0x rest

/-- The stripped schema-uid string `self.schema_uid.replace("0x", "")`
(`eas/client.py` line 184). -/
def replace0x (s : String) : String :=
  ⟨removeAll0x s.data⟩

/-- One hexadecimal digit value, or `none` for a non-hex character. -/
def hexDigit? (c : Char) : Option Nat :=
  if '0' ≤ c ∧ c ≤ '9' then some (c.toNat - '0'.toNat)
  else if 'a' ≤ c ∧ c ≤ 'f' then some (c.toNat - 'a'.toNat + 10)
  else if 'A' ≤ c ∧ c ≤ 'F' then some (c.toNat - 'A'.toNat + 10)
  else none

/-- Models `bytes.fromhex` on a whitespace-free string: pairs of hex digits
become bytes; an odd length or a non-hex character fails. -/
def hexBytes? : List Char → Option (List Nat)
  | [] => some []
  | c1 :: c2 :: rest =>
    match hexDigit? c1, hexDigit? c2, hexBytes? rest with
    | some h, some l, some bs => some ((h * 16 + l) :: bs)
    | _, _, _ => none
  | [_] => none

/-- Embedding of the schema-uid handling (`eas/client.py` lines 184–189):
remove every `"0x"` occurrence, fail when the remainder is not 64 characters
long, then decode the hex bytes. -/
def parseSchemaUid (schemaUid : String) : Except EASError (List Nat) :=
  let hexStr := replace0x schemaUid
  if hexStr.length ≠ 64 then
    .error .schemaUidLength
  else
    match hexBytes? hexStr.data with
    | some bs => .ok bs
    | none => .error .schemaUidNotHex

/-- Embedding of the receipt handling (`eas/client.py` lines 223–263): a
receipt status other than 1 raises `Transaction failed`; otherwise the logs
are scanned in order (guarded by `if receipt.logs:`) and the first successful
decode of the `Attested` event yields the uid; when no log decodes, the call
raises the could-not-extract-uid error even though the transaction
succeeded. -/
def processReceipt {L : Type} (decode : L → Option String)
    (receipt : Receipt L) (tx_hash : String) :
    Except EASError (String × String) :=
  if receipt.status ≠ 1 then
    .error (.transactionFailed tx_hash)
  else
    match (if receipt.logs.isEmpty then none else receipt.logs.findSome? decode) with
    | some uid => .ok (uid, tx_hash)
    | none => .error (.uidMissing tx_hash)

/-- The default `community_context` argument of
`EASClient.create_attestation` (`eas/client.py` line 37). -/
def defaultCommunityContext : String := "mvp_pilot_v1"

/-- Embedding of `EASClient.create_attestation` (`eas/client.py` lines
31–267): input validation, ABI encoding of the four schema fields, schema-uid
parsing, construction of the attest call tuple, submission via `chain`, and
receipt processing.  `community_context?` is `none` when the caller leaves the
defaulted parameter out, as `mint_attestation` does. -/
def create_attestation {L : Type}
    (isAddress : String → Bool) (toChecksum : String → String)
    (schemaUid : String)
    (chain : AttestCall → Receipt L × String)
    (decode : L → Option String)
    (recipient : String) (scaled_score : Nat) (metric_ratings : List Int)
    (source_ref : String) (community_context? : Option String) :
    Except EASError (String × String) :=
  if metric_ratings.length ≠ 5 then
    .error .invalidMetricsLength
  else if metric_ratings.any (fun r => decide (r < 0) || decide (5 < r)) then
    .error .metricOutOfRange
  else if !isAddress recipient then
    .error .invalidRecipient
  else
    let community_context := community_context?.getD defaultCommunityContext
    let encoded_data := abiEncodeSchema scaled_score metric_ratings source_ref
      community_context
    match parseSchemaUid schemaUid with
    | .error e => .error e
    | .ok schema_uid_bytes =>
      let call : AttestCall :=
        ⟨schema_uid_bytes, toChecksum recipient, 0, false,
          List.replicate 32 0, encoded_data, 0⟩
      let sent := chain call
      processReceipt decode sent.1 sent.2

/-! ## Theorems -/

/-- Claim C1: user-row creation in `calculate_and_store` is an existence check
(`session.get`) followed by an unguarded insert, not an insert-or-fetch: when
two concurrent runs both reference the new user id 42 and both existence
checks execute before either flush, the second run's flush hits the
primary-key unique-constraint violation and fails, while the spec's atomic
insert-or-fetch `EnsureUser` leaves exactly one stored row and succeeds for
both callers. -/
theorem claim_C1 :
    raceBothCheckFirst 42 [] = .error "unique constraint violation" ∧
    ensureUserSpecAtomic (ensureUserSpecAtomic [] 42) 42 = [42] :=
  ⟨rfl, rfl⟩

/-- Claim C2: `calculate_score` fails exactly when the vector's length is not
5 or some element is outside `[0, 5]`; on every valid vector it returns the
arithmetic mean of the five elements, and `Score([5,4,3,2,1]) = 3`,
`Score([5,5,5,5,5]) = 5`, `Score([0,0,0,0,0]) = 0`. -/
theorem claim_C2 (metrics : List Int) :
    ((∃ e, calculate_score metrics = .error e) ↔
      metrics.length ≠ 5 ∨ ∃ m ∈ metrics, m < 0 ∨ 5 < m) ∧
    (∀ q : ℚ, calculate_score metrics = .ok q → q = (metrics.sum : ℚ) / 5) ∧
    calculate_score [5, 4, 3, 2, 1] = .ok 3 ∧
    calculate_score [5, 5, 5, 5, 5] = .ok 5 ∧
    calculate_score [0, 0, 0, 0, 0] = .ok 0 := by
  refine ⟨?_, ?_, by norm_num [calculate_score], by norm_num [calculate_score],
    by norm_num [calculate_score]⟩
  · unfold calculate_score
    by_cases h5 : metrics.length = 5
    · rw [if_neg (by simp [h5])]
      by_cases hr : metrics.any (fun m => decide (m < 0) || decide (5 < m)) = true
      · rw [if_pos hr]
        constructor
        · intro _
          refine Or.inr ?_
          rcases List.any_eq_true.mp hr with ⟨m, hm, hp⟩
          have hp' : m < 0 ∨ 5 < m := by simpa using hp
          exact ⟨m, hm, hp'⟩
        · intro _; exact ⟨_, rfl⟩
      · rw [if_neg hr]
        constructor
        · rintro ⟨e, he⟩; exact absurd he (by simp)
        · rintro (h | ⟨m, hm, h⟩)
          · exact absurd h5 h
          · exact absurd (List.any_eq_true.mpr ⟨m, hm, by simpa using h⟩) hr
    · rw [if_pos h5]
      exact ⟨fun _ => Or.inl h5, fun _ => ⟨_, rfl⟩⟩
  · intro q h
    unfold calculate_score at h
    split at h
    · exact absurd h (by simp)
    · split at h
      · exact absurd h (by simp)
      · exact (Except.ok.injEq _ _ ▸ h).symm

/-- Claim C2 witness: the score of the concrete valid vector `[1,2,3,4,5]` is
its arithmetic mean 3. -/
theorem claim_C2_witness : (3 : ℚ) = (([1, 2, 3, 4, 5] : List Int).sum : ℚ) / 5 :=
  (claim_C2 [1, 2, 3, 4, 5]).2.1 3 (by norm_num [calculate_score])

/-- Claim C3: `get_tier` returns no tier below 3, Bronze on `[3, 4)`, Silver
on `[4, 23/5)` and Gold on `[23/5, 5]`, with the spec's boundary values
2.9, 3, 3.9, 4, 4.5, 4.6 and 5 mapped accordingly. -/
theorem claim_C3 (s : ℚ) :
    (s < 3 → get_tier s = none) ∧
    (3 ≤ s → s < 4 → get_tier s = some .bronze) ∧
    (4 ≤ s → s < 23 / 5 → get_tier s = some .silver) ∧
    (23 / 5 ≤ s → s ≤ 5 → get_tier s = some .gold) ∧
    get_tier (29 / 10) = none ∧ get_tier 3 = some .bronze ∧
    get_tier (39 / 10) = some .bronze ∧ get_tier 4 = some .silver ∧
    get_tier (9 / 2) = some .silver ∧ get_tier (23 / 5) = some .gold ∧
    get_tier 5 = some .gold := by
  refine ⟨?_, ?_, ?_, ?_, by norm_num [get_tier], by norm_num [get_tier],
    by norm_num [get_tier], by norm_num [get_tier], by norm_num [get_tier],
    by norm_num [get_tier], by norm_num [get_tier]⟩
  · intro h
    rw [get_tier, if_pos h]
  · intro h1 h2
    rw [get_tier, if_neg (by linarith), if_pos ⟨h1, h2⟩]
  · intro h1 h2
    rw [get_tier, if_neg (by linarith), if_neg (by rintro ⟨-, h⟩; linarith),
      if_pos ⟨h1, h2⟩]
  · intro h1 _
    rw [get_tier, if_neg (by intro h; linarith), if_neg (by rintro ⟨-, h⟩; linarith),
      if_neg (by rintro ⟨-, h⟩; linarith)]

/-- Claim C3 witness: the Bronze band at the concrete boundary score 3. -/
theorem claim_C3_witness : get_tier 3 = some .bronze :=
  (claim_C3 3).2.1 (by norm_num) (by norm_num)

/-- Claim C10: `get_tier` has no upper-bound check — every score at least
23/5 is classified Gold, including scores strictly greater than 5. -/
theorem claim_C10 (s : ℚ) (h : 23 / 5 ≤ s) : get_tier s = some .gold := by
  rw [get_tier, if_neg (by intro hc; linarith), if_neg (by rintro ⟨-, hc⟩; linarith),
    if_neg (by rintro ⟨-, hc⟩; linarith)]

/-- Claim C10 witness: the out-of-range score 6 (strictly above 5) is
classified Gold. -/
theorem claim_C10_witness : (5 : ℚ) < 6 ∧ get_tier 6 = some .gold :=
  ⟨by norm_num, claim_C10 6 (by norm_num)⟩

/-- Claim C6 counterexample: a stored user whose wallet address is the empty
string — present and non-null — is reported ineligible with reason
"No Wallet" at score 3, where the claim, whose only ineligibility conditions
are a missing row or a null wallet, requires an eligible result carrying the
fetched wallet address. -/
theorem claim_C6_counterexample :
    getUser [⟨7, some ""⟩] 7 = some ⟨7, some ""⟩ ∧
    (⟨7, some ""⟩ : User).wallet_address ≠ none ∧
    ¬ (3 : ℚ) < 3 ∧
    (check_eligibility [⟨7, some ""⟩] 7 3).1 = ⟨false, some "No Wallet", none⟩ :=
  ⟨rfl, by simp, by norm_num, rfl⟩

/-- Claim C6 (amended): with score below 3 the result is ineligible with
reason "Not Eligible" and the user table is never queried; otherwise a missing
user row, a null wallet or an empty-string wallet gives ineligible with reason
"No Wallet", and any other stored wallet gives an eligible result carrying the
fetched wallet address (the second component records whether the user table
was queried). -/
theorem claim_C6 (users : List User) (tid : Int) (score : ℚ) :
    (score < 3 →
      check_eligibility users tid score = (⟨false, some "Not Eligible", none⟩, false)) ∧
    (¬ score < 3 → getUser users tid = none →
      check_eligibility users tid score = (⟨false, some "No Wallet", none⟩, true)) ∧
    (∀ u, ¬ score < 3 → getUser users tid = some u →
      (u.wallet_address = none ∨ u.wallet_address = some "") →
      check_eligibility users tid score = (⟨false, some "No Wallet", none⟩, true)) ∧
    (∀ u w, ¬ score < 3 → getUser users tid = some u →
      u.wallet_address = some w → w ≠ "" →
      check_eligibility users tid score = (⟨true, none, some w⟩, true)) := by
  refine ⟨?_, ?_, ?_, ?_⟩
  · intro h
    rw [check_eligibility, if_pos h]
  · intro h hn
    rw [check_eligibility, if_neg h, hn]
  · intro u h hu hw
    rcases hw with hw | hw <;>
      rw [check_eligibility, if_neg h, hu] <;>
      simp [hw]
  · intro u w h hu hw hne
    rw [check_eligibility, if_neg h, hu]
    simp [hw, hne]

/-- Claim C6 witness: a score-1 check never queries the user table and
reports "Not Eligible"; a score-4 check for a user with wallet "0xW" is
eligible carrying that wallet. -/
theorem claim_C6_witness :
    check_eligibility [] 5 1 = (⟨false, some "Not Eligible", none⟩, false) ∧
    check_eligibility [⟨5, some "0xW"⟩] 5 4 = (⟨true, none, some "0xW"⟩, true) :=
  ⟨(claim_C6 [] 5 1).1 (by norm_num),
    (claim_C6 [⟨5, some "0xW"⟩] 5 4).2.2.2 ⟨5, some "0xW"⟩ "0xW" (by norm_num)
      rfl rfl (by simp)⟩

/-- The retry loop never makes more attempts than its fuel allows. -/
theorem mintGo_attempts_le (vid wallet : String)
    (outcomes : Nat → Option (String × String)) :
    ∀ fuel attempt, (mintGo vid wallet outcomes attempt fuel).attempts ≤ fuel := by
  intro fuel
  induction fuel with
  | zero => intro attempt; simp [mintGo]
  | succ f ih =>
    intro attempt
    unfold mintGo
    match outcomes attempt with
    | some (uid, tx) => simp
    | none =>
      by_cases hf : f = 0
      · simp [hf]
      · simp only [if_neg hf]
        exact Nat.succ_le_succ (ih (attempt + 1))

/-- With positive fuel the retry loop makes at least one attempt. -/
theorem mintGo_attempts_pos (vid wallet : String)
    (outcomes : Nat → Option (String × String)) :
    ∀ fuel attempt, 1 ≤ fuel → 1 ≤ (mintGo vid wallet outcomes attempt fuel).attempts := by
  intro fuel attempt hfuel
  match fuel, hfuel with
  | f + 1, _ =>
    unfold mintGo
    match outcomes attempt with
    | some (uid, tx) => simp
    | none =>
      by_cases hf : f = 0
      · simp [hf]
      · simp only [if_neg hf]
        exact Nat.le_add_left 1 _

/-- The waits slept by the retry loop starting at attempt number `attempt` are
`2 ^ attempt, 2 ^ (attempt + 1), …`, one per attempt except the last. -/
theorem mintGo_waits (vid wallet : String)
    (outcomes : Nat → Option (String × String)) :
    ∀ fuel attempt, (mintGo vid wallet outcomes attempt fuel).waits =
      (List.range ((mintGo vid wallet outcomes attempt fuel).attempts - 1)).map
        (fun i => 2 ^ (attempt + i)) := by
  intro fuel
  induction fuel with
  | zero => intro attempt; simp [mintGo]
  | succ f ih =>
    intro attempt
    unfold mintGo
    match outcomes attempt with
    | some (uid, tx) => simp
    | none =>
      by_cases hf : f = 0
      · simp [hf]
      · simp only [if_neg hf]
        have hpos := mintGo_attempts_pos vid wallet outcomes f (attempt + 1)
          (Nat.one_le_iff_ne_zero.mpr hf)
        obtain ⟨n, hn⟩ := Nat.exists_eq_add_of_le hpos
        simp only [ih (attempt + 1), hn]
        have hrange : 1 + n + 1 - 1 = n + 1 := by omega
        have hrange' : 1 + n - 1 = n := by omega
        rw [hrange, hrange', List.range_succ_eq_map, List.map_cons, List.map_map]
        simp only [List.cons.injEq]
        refine ⟨by simp, ?_⟩
        apply List.map_congr_left
        intro i _
        simp only [Function.comp_apply]
        congr 1
        omega

/-- Claim C7: `mint_attestation` makes at most 5 attempts, the wait before
each retry is `2 ^ attempt` giving the sequence 2, 4, 8, 16 (one wait per
attempt except the last), and when every attempt fails all five attempts run
with exactly those four waits. -/
theorem claim_C7 (vid wallet : String)
    (outcomes : Nat → Option (String × String)) :
    (mint_attestation vid wallet outcomes).attempts ≤ 5 ∧
    (mint_attestation vid wallet outcomes).waits =
      (List.range ((mint_attestation vid wallet outcomes).attempts - 1)).map
        (fun i => 2 ^ (i + 1)) ∧
    (mint_attestation vid wallet (fun _ => none)).attempts = 5 ∧
    (mint_attestation vid wallet (fun _ => none)).waits = [2, 4, 8, 16] := by
  refine ⟨mintGo_attempts_le vid wallet outcomes 5 1, ?_, rfl, rfl⟩
  rw [mint_attestation, max_attempts, mintGo_waits vid wallet outcomes 5 1]
  apply List.map_congr_left
  intro i _
  congr 1
  omega

/-- Claim C4: when every mint attempt fails, the run persists exactly one
FAILED attestation row with uid `"failed_" ++ validation_id` and empty
transaction hash, still reaches the Notify step with a null attestation uid,
and terminates with success true and null attestation uid and transaction
hash. -/
theorem claim_C4 (rating : RatingData) (users : List User) (vid : String)
    (score : ℚ) (w : String) (tier : Tier)
    (hscore : calculate_score rating.metrics = .ok score)
    (helig : (check_eligibility users rating.target_user_id score).1 =
      ⟨true, none, some w⟩)
    (htier : get_tier score = some tier) :
    workflowRun rating users vid (fun _ => none) =
      ⟨⟨true, some vid, some score, some tier, none, none, none, none⟩,
        [⟨"failed_" ++ vid, vid, w, "", .failed⟩], some ⟨tier, none⟩⟩ := by
  rw [workflowRun, hscore]
  simp only [helig, htier]
  rfl

/-- Claim C4 witness: the concrete exhausted run — metrics `[5,4,3,4,4]`
(score 4, Silver) for user 3 with wallet "0xW" and five failing mint
attempts. -/
theorem claim_C4_witness :
    workflowRun ⟨1, 2, 3, 4, [5, 4, 3, 4, 4]⟩ [⟨3, some "0xW"⟩] "v1" (fun _ => none) =
      ⟨⟨true, some "v1", some 4, some .silver, none, none, none, none⟩,
        [⟨"failed_v1", "v1", "0xW", "", .failed⟩], some ⟨.silver, none⟩⟩ :=
  claim_C4 ⟨1, 2, 3, 4, [5, 4, 3, 4, 4]⟩ [⟨3, some "0xW"⟩] "v1" 4 "0xW" .silver
    (by norm_num [calculate_score]) rfl (by norm_num [get_tier])

/-- Scanning a log list whose earlier entries all fail to decode yields the
first successful decode. -/
theorem findSome?_of_first {L : Type} (decode : L → Option String) :
    ∀ (pre : List L) (log : L) (post : List L) (uid : String),
      (∀ l ∈ pre, decode l = none) → decode log = some uid →
      (pre ++ log :: post).findSome? decode = some uid := by
  intro pre
  induction pre with
  | nil =>
    intro log post uid _ hlog
    simp [List.findSome?_cons, hlog]
  | cons a rest ih =>
    intro log post uid hpre hlog
    have ha : decode a = none := hpre a (by simp)
    simp only [List.cons_append, List.findSome?_cons, ha]
    exact ih log post uid (fun l hl => hpre l (by simp [hl])) hlog

/-- Claim C5: with a status-1 (mined, successful) receipt, the client takes
the first log entry that decodes as the known event as the record identifier;
when no log decodes it fails with the missing-record-identifier error — a
constructor distinct from the rejected-transaction error, which is what every
non-1 status produces. -/
theorem claim_C5 {L : Type} (decode : L → Option String) (receipt : Receipt L)
    (tx : String) (hstatus : receipt.status = 1) :
    (receipt.logs.findSome? decode = none →
      processReceipt decode receipt tx = .error (.uidMissing tx)) ∧
    (∀ pre log post uid, receipt.logs = pre ++ log :: post →
      (∀ l ∈ pre, decode l = none) → decode log = some uid →
      processReceipt decode receipt tx = .ok (uid, tx)) ∧
    (∀ r : Receipt L, r.status ≠ 1 →
      processReceipt decode r tx = .error (.transactionFailed tx)) ∧
    (∀ t t' : String, EASError.uidMissing t ≠ EASError.transactionFailed t') := by
  refine ⟨?_, ?_, ?_, fun t t' h => EASError.noConfusion h⟩
  · intro hnone
    rw [processReceipt, if_neg (by simp [hstatus])]
    rcases hempty : receipt.logs.isEmpty with h | h <;> simp [hempty, hnone]
  · intro pre log post uid hlogs hpre hlog
    rw [processReceipt, if_neg (by simp [hstatus])]
    have hne : receipt.logs.isEmpty = false := by
      rw [hlogs]
      simp [List.isEmpty_eq_false_iff_exists_mem]
    rw [hne]
    simp only [Bool.false_eq_true, if_false]
    rw [hlogs, findSome?_of_first decode pre log post uid hpre hlog]
  · intro r hr
    rw [processReceipt, if_pos hr]

/-- Claim C5 witness: a mined receipt whose second log decodes yields that
uid; a mined receipt with one undecodable log fails with the
missing-record-identifier error. -/
theorem claim_C5_witness :
    processReceipt (fun n : Nat => if n == 7 then some "0xU" else none)
      ⟨1, [3, 7]⟩ "0xT" = .ok ("0xU", "0xT") ∧
    processReceipt (fun _ : Nat => none) ⟨1, [3]⟩ "0xT" =
      .error (.uidMissing "0xT") :=
  ⟨(claim_C5 (fun n : Nat => if n == 7 then some "0xU" else none)
      ⟨1, [3, 7]⟩ "0xT" rfl).2.1 [3] 7 [] "0xU" rfl (by decide) rfl,
    (claim_C5 (fun _ : Nat => none) ⟨1, [3]⟩ "0xT" rfl).1 rfl⟩

/-- Claim C8: under valid inputs (five in-range ratings, a valid recipient
address, a well-formed schema uid), `create_attestation` submits exactly one
attest call carrying the parsed 32-byte schema uid, the checksummed
recipient, expiration time 0, revocable false, an all-zero 32-byte reference
uid, value 0, and as payload the canonical ABI encoding of the four schema
fields in fixed order with the defaulted community context "mvp_pilot_v1";
the call's result is then the receipt processing of whatever the chain
returns for that call. -/
theorem claim_C8 {L : Type} (isAddress : String → Bool)
    (toChecksum : String → String) (schemaUid : String)
    (chain : AttestCall → Receipt L × String) (decode : L → Option String)
    (recipient : String) (scaled_score : Nat) (metric_ratings : List Int)
    (source_ref : String) (uidBytes : List Nat)
    (hlen : metric_ratings.length = 5)
    (hrange : ∀ r ∈ metric_ratings, 0 ≤ r ∧ r ≤ 5)
    (haddr : isAddress recipient = true)
    (huid : parseSchemaUid schemaUid = .ok uidBytes) :
    create_attestation isAddress toChecksum schemaUid chain decode recipient
      scaled_score metric_ratings source_ref none =
    processReceipt decode
      (chain ⟨uidBytes, toChecksum recipient, 0, false, List.replicate 32 0,
        abiEncodeSchema scaled_score metric_ratings source_ref "mvp_pilot_v1",
        0⟩).1
      (chain ⟨uidBytes, toChecksum recipient, 0, false, List.replicate 32 0,
        abiEncodeSchema scaled_score metric_ratings source_ref "mvp_pilot_v1",
        0⟩).2 := by
  rw [create_attestation, if_neg (by simp [hlen]), if_neg ?_,
    if_neg (by simp [haddr])]
  · simp only [huid, Option.getD, defaultCommunityContext]
  · simp only [List.any_eq_true, not_exists, not_and, Bool.or_eq_true,
      decide_eq_true_eq]
    intro r hr
    have := hrange r hr
    omega

/-- Claim C8 witness: the concrete attest call for score 400, ratings
`[1,1,1,1,1]`, source "discord:1:2" and an all-zero schema uid, against a
chain returning a mined receipt with one decodable log. -/
theorem claim_C8_witness :
    create_attestation (fun _ => true) id
      "0x0000000000000000000000000000000000000000000000000000000000000000"
      (fun _ => (⟨1, [0]⟩, "0xT")) (fun _ : Nat => some "0xU")
      "0xR" 400 [1, 1, 1, 1, 1] "discord:1:2" none =
    processReceipt (fun _ : Nat => some "0xU") ⟨1, [0]⟩ "0xT" :=
  claim_C8 (fun _ => true) id
    "0x0000000000000000000000000000000000000000000000000000000000000000"
    (fun _ => (⟨1, [0]⟩, "0xT")) (fun _ : Nat => some "0xU")
    "0xR" 400 [1, 1, 1, 1, 1] "discord:1:2" (List.replicate 32 0)
    (by decide) (by decide) rfl rfl

/-- Modelled from the spec: "after stripping any 0x prefix" — remove one
leading "0x" when present and nothing else, for comparison with the
`replace`-based stripping the client performs. -/
def stripLeading0x (s : String) : String :=
  match s.data with
  | '0' :: 'x' :: rest => ⟨rest⟩
  | _ => s

/-- A schema uid of 66 characters whose interior contains "0x": its leading
"0x"-prefix-stripped form is itself. -/
def badSchemaUid : String := "a0x" ++ String.mk (List.replicate 63 '1')

/-- Claim C9 counterexample: `badSchemaUid` is 66 characters long after
stripping any leading 0x prefix — so the claim requires a configuration
error — yet the client removes the interior "0x" occurrence too
(`str.replace("0x", "")`), obtains 64 hex characters, raises no error, and
proceeds to submit the transaction and return its result. -/
theorem claim_C9_counterexample :
    (stripLeading0x badSchemaUid).length = 66 ∧
    parseSchemaUid badSchemaUid = .ok (161 :: List.replicate 31 17) ∧
    create_attestation (fun _ => true) id badSchemaUid
      (fun _ => (⟨1, [0]⟩, "0xT")) (fun _ : Nat => some "0xU")
      "0xR" 400 [1, 1, 1, 1, 1] "d:1:2" none = .ok ("0xU", "0xT") :=
  ⟨by decide, rfl, rfl⟩

/-- Claim C9 (amended): the client fails with the schema-uid length
configuration error exactly when the identifier is not 64 characters long
after removing every occurrence of the substring "0x"; under otherwise valid
inputs that failure happens for every chain behaviour, i.e. before any
transaction is built. -/
theorem claim_C9 (s : String) :
    (parseSchemaUid s = .error .schemaUidLength ↔ (replace0x s).length ≠ 64) ∧
    (∀ (isAddress : String → Bool) (toChecksum : String → String)
      (chain : AttestCall → Receipt Nat × String) (decode : Nat → Option String)
      (recipient : String) (scaled_score : Nat) (metric_ratings : List Int)
      (source_ref : String) (cc : Option String),
      metric_ratings.length = 5 →
      (∀ r ∈ metric_ratings, 0 ≤ r ∧ r ≤ 5) →
      isAddress recipient = true →
      (replace0x s).length ≠ 64 →
      create_attestation isAddress toChecksum s chain decode recipient
        scaled_score metric_ratings source_ref cc = .error .schemaUidLength) := by
  have hmain : parseSchemaUid s = .error .schemaUidLength ↔
      (replace0x s).length ≠ 64 := by
    rw [parseSchemaUid]
    by_cases h : (replace0x s).length ≠ 64
    · rw [if_pos h]
      simp [h]
    · rw [if_neg h]
      match hb : hexBytes? (replace0x s).data with
      | some bs => simp [h]
      | none => simp [h]
  refine ⟨hmain, ?_⟩
  intro isAddress toChecksum chain decode recipient scaled_score metric_ratings
    source_ref cc hlen hrange haddr hbad
  rw [create_attestation, if_neg (by simp [hlen]), if_neg ?_,
    if_neg (by simp [haddr])]
  · rw [hmain.mpr hbad]
  · simp only [List.any_eq_true, not_exists, not_and, Bool.or_eq_true,
      decide_eq_true_eq]
    intro r hr
    have := hrange r hr
    omega

/-- Claim C9 witness: the two-character schema uid "zz" fails with the length
configuration error, both at the parse and through `create_attestation`,
regardless of the chain. -/
theorem claim_C9_witness :
    parseSchemaUid "zz" = .error .schemaUidLength ∧
    create_attestation (fun _ => true) id "zz"
      (fun _ => (⟨1, [0]⟩, "0xT")) (fun _ : Nat => some "0xU")
      "0xR" 400 [1, 1, 1, 1, 1] "d:1:2" none = .error .schemaUidLength :=
  ⟨(claim_C9 "zz").1.mpr (by decide),
    (claim_C9 "zz").2 (fun _ => true) id (fun _ => (⟨1, [0]⟩, "0xT"))
      (fun _ : Nat => some "0xU") "0xR" 400 [1, 1, 1, 1, 1] "d:1:2" none
      (by decide) (by decide) rfl (by decide)⟩

end VeritasChain
